import Mathlib

/-!
Verification development for `skimage/draw/_random_shapes.py` (fork `mrdupadupa/scikit-image`).

The Python module is shallowly embedded as executable Lean definitions:

* Python arbitrary-precision integers become `Int` (counts and array shapes become `Nat`);
* `np.random.RandomState` is modelled as a stream `g : Nat → Nat` of raw draws together
  with a cursor `k : Nat`; `randint(lo, hi)` consumes one stream element and returns
  `lo + g k % (hi - lo)`, which is deterministic in the stream and ranges over the same
  inclusive-exclusive interval as numpy's sampler.  Reseeding with the same seed in numpy
  reproduces the same stream, so two calls with the same seed correspond to two calls
  with the same `g`;
* Python exceptions become an explicit error type `PyError` threaded through `Except`;
* the external rasterizer (`skimage.draw.polygon` / `skimage.draw.disk`) is out of scope:
  shape fitters record the exact call they make as a `RasterCall` value, and the placement
  engine is parameterized by an arbitrary pixel-set-producing generator.

Relevant facts about the source that the development reflects faithfully:

* the actual Python module cannot even be imported: the `SHAPE_GENERATORS_ALL` dict literal
  at lines 246-250 has its closing parenthesis inside a comment (a `SyntaxError`), and the
  default value of the `scenario` parameter (line 286) and every scenario comparison
  (lines 326-336) read the undefined names `SHAPE` and `GENERATOR_ALL_HALO` etc.
  (`SHAPE-GENERATOR_ALL_HALO` parses as a subtraction of two unbound globals, a `NameError`);
* the pinned-category branch (line 343) reads the undefined global `SHAPE_GENERATORS`
  (the registries actually defined are `SHAPE_GENERATORS_ALL` / `_R_T` / `_C`), a `NameError`;
* the unknown-scenario fallback (lines 339-340) merely executes `print("Error in the script")`
  and leaves `shape_generator` unbound.

The embedding models the generator-resolution step by `resolve_shape_generator`, which
returns the `NameError` the Python interpreter would raise, and models the rest of
`random_shapes` (validation, color sampling, placement loop) directly from the source,
parameterized by the resolution outcome so that the loop's invariants can be settled.
-/

/-- A pixel coordinate `(row, column)`, as produced by the external rasterizer. -/
abbrev Pixel : Type := Int × Int

/-- A bounding box `((r0, r1), (c0, c1))` as stored in a label. -/
abbrev BBox : Type := (Int × Int) × (Int × Int)

/-- A shape label `(category, bounding_box)` (source line 60, 116-117, 169-170). -/
abbrev ShapeLabel : Type := String × BBox

/-- The Python exceptions that `_random_shapes.py` can raise, by class and message. -/
inductive PyError : Type where
  | nameError : String → PyError
  | valueError : String → PyError
  | arithmeticError : String → PyError
deriving DecidableEq, Repr

/-- The random stream extracted from `np.random.RandomState(random_seed)`: element `k`
is the `k`-th raw nonnegative draw the state would produce. -/
abbrev Rng : Type := Nat → Nat

/-- Model of `random.randint(lo, hi)` (one sample, numpy legacy `RandomState.randint`):
uniform on `[lo, hi)`; raises `ValueError` when `lo >= hi`.  Consumes one stream element;
returns the sample and the advanced cursor. -/
def randint (lo hi : Int) (g : Rng) (k : Nat) : Except PyError (Int × Nat) :=
  if lo < hi then Except.ok (lo + (g k : Int) % (hi - lo), k + 1)
  else Except.error (PyError.valueError "low >= high")

/-- Model of `random.randint(lo, hi)` on nonnegative counts (used for `num_shapes`). -/
def randintNat (lo hi : Nat) (g : Rng) (k : Nat) : Except PyError (Nat × Nat) :=
  if lo < hi then Except.ok (lo + g k % (hi - lo), k + 1)
  else Except.error (PyError.valueError "low >= high")

/-- The call a shape fitter makes to the external rasterizer (out of scope per the spec):
either `draw.polygon(row_coords, col_coords)` or `draw.disk(center, radius)`. -/
inductive RasterCall : Type where
  | polygon : List Int → List Int → RasterCall
  | disk : Pixel → Int → RasterCall
deriving DecidableEq, Repr

/-- The common type of the three shape fitters: anchor `point`, image shape
`(rows, cols, channels)`, size range `shape = (min_size, max_size)`, random stream and
cursor; returns the rasterizer call and the label, or the raised exception, together with
the advanced cursor (exceptions in the source are raised before any draw is consumed). -/
abbrev ShapeFitter : Type :=
  Pixel → Nat × Nat × Nat → Int × Int → Rng → Nat → (Except PyError (RasterCall × ShapeLabel)) × Nat

/-- Embedding of `_generate_rectangle_mask` (source lines 40-62). -/
def generate_rectangle_mask : ShapeFitter := fun point image shape g k =>
  let available_width := min ((image.2.1 : Int) - point.2) shape.2
  if available_width < shape.1 then
    (Except.error (PyError.arithmeticError "cannot fit shape to image"), k)
  else
    let available_height := min ((image.1 : Int) - point.1) shape.2
    if available_height < shape.1 then
      (Except.error (PyError.arithmeticError "cannot fit shape to image"), k)
    else
      match randint shape.1 (available_height + 1) g k with
      | Except.error e => (Except.error e, k)
      | Except.ok (r, k1) =>
        match randint shape.1 (available_width + 1) g k1 with
        | Except.error e => (Except.error e, k1)
        | Except.ok (c, k2) =>
          (Except.ok
            (RasterCall.polygon
              [point.1, point.1 + r, point.1 + r, point.1]
              [point.2, point.2, point.2 + c, point.2 + c],
             ("rectangle", ((point.1, point.1 + r), (point.2, point.2 + c)))), k2)

/-- Truncation toward zero of `n / 2` over the rationals, i.e. the value C-casting
`float(n) / 2.0` to an integer produces.  Numpy's legacy `RandomState.randint` casts
float bounds to integers this way. -/
def truncHalf (n : Int) : Int :=
  if 0 ≤ n then ((n.toNat / 2 : Nat) : Int) else -(((-n).toNat / 2 : Nat) : Int)

/-- Embedding of `_generate_circle_mask` (source lines 65-119).  The source computes the
radius bounds as Python floats `min_radius = shape[0]/2.0`, `max_radius = shape[1]/2.0`
and `available_radius = min(left, right, top, bottom, max_radius)`; these are exact
half-integers, so the embedding carries `2 * available_radius` as the integer `a2` and
truncates exactly where numpy's `randint` truncates its float arguments. -/
def generate_circle_mask : ShapeFitter := fun point image shape g k =>
  if shape.1 = 1 ∨ shape.2 = 1 then
    (Except.error (PyError.valueError "size must be > 1 for circles"), k)
  else
    let left := point.2
    let right := (image.2.1 : Int) - point.2
    let top := point.1
    let bottom := (image.1 : Int) - point.1
    let a2 := min (min (min (2 * left) (2 * right)) (min (2 * top) (2 * bottom))) shape.2
    if a2 < shape.1 then
      (Except.error (PyError.arithmeticError "cannot fit shape to image"), k)
    else
      match randint (truncHalf shape.1) (truncHalf (a2 + 2)) g k with
      | Except.error e => (Except.error e, k)
      | Except.ok (radius, k1) =>
        (Except.ok
          (RasterCall.disk (point.1, point.2) radius,
           ("circle", ((point.1 - radius + 1, point.1 + radius),
                       (point.2 - radius + 1, point.2 + radius)))), k1)

/-- Exact-real model of `int(np.ceil(np.sqrt(3 / 4.0) * side))` (source line 159) for a
nonnegative side: the least integer `h` with `h ≥ side * sqrt(3)/2`. -/
def triangle_height_of (side : Int) : Int :=
  let n := 3 * side.toNat * side.toNat
  let r := Nat.sqrt n
  if r * r = n then (((r + 1) / 2 : Nat) : Int) else ((r / 2 + 1 : Nat) : Int)

/-- Embedding of `_generate_triangle_mask` (source lines 122-172). -/
def generate_triangle_mask : ShapeFitter := fun point image shape g k =>
  if shape.1 = 1 ∨ shape.2 = 1 then
    (Except.error (PyError.valueError "dimension must be > 1 for triangles"), k)
  else
    let available_side := min (min ((image.2.1 : Int) - point.2) (point.1 + 1)) shape.2
    if available_side < shape.1 then
      (Except.error (PyError.arithmeticError "cannot fit shape to image"), k)
    else
      match randint shape.1 (available_side + 1) g k with
      | Except.error e => (Except.error e, k)
      | Except.ok (side, k1) =>
        let th := triangle_height_of side
        (Except.ok
          (RasterCall.polygon
            [point.1, point.1 - th, point.1]
            [point.2, point.2 + side / 2, point.2 + side],
           ("triangle", ((point.1 - th, point.1), (point.2, point.2 + side)))), k1)

/-- Embedding of the `SHAPE_GENERATORS_ALL` registry (source lines 246-250): a dict in
insertion order `rectangle, triangle, circle` (the `ellipse` entry is commented out). -/
def SHAPE_GENERATORS_ALL : List (String × ShapeFitter) :=
  [("rectangle", generate_rectangle_mask),
   ("triangle", generate_triangle_mask),
   ("circle", generate_circle_mask)]

/-- `SHAPE_CHOICES_ALL = list(SHAPE_GENERATORS_ALL.values())` (source line 261). -/
def SHAPE_CHOICES_ALL : List ShapeFitter := SHAPE_GENERATORS_ALL.map Prod.snd

/-- The category names of `SHAPE_CHOICES_ALL`, in the order `random.choice` indexes them. -/
def SHAPE_CHOICES_ALL_CATEGORIES : List String := SHAPE_GENERATORS_ALL.map Prod.fst

/-- The weight vector `p=[0.4, 0.4, 0.2]` passed to `random.choice` at source line 327. -/
def HALO_WEIGHTS : List ℚ := [2/5, 2/5, 1/5]

/-- Model of numpy's weighted `random.choice(options, p=w)`: with `u` the uniform draw in
`[0, 1)`, the chosen index is the first `i` with `u < w_0 + ... + w_i` (numpy searches the
cumulative distribution with side `right`). -/
def weighted_index (w : List ℚ) (u : ℚ) : Nat :=
  match w with
  | [] => 0
  | x :: rest => if u < x then 0 else weighted_index rest (u - x) + 1

/-- The category that `random.choice(SHAPE_CHOICES_ALL, p=[0.4, 0.4, 0.2])` (source
line 327) selects for a uniform draw `u`. -/
def halo_category (u : ℚ) : String :=
  SHAPE_CHOICES_ALL_CATEGORIES.getD (weighted_index HALO_WEIGHTS u) ""

/-- Normalization of `intensity_range` inside `_generate_random_colors` (source lines
269-272): a single-channel range is used as is (the source wraps the bare pair into a
1-tuple, which this list representation already is), and a length-1 tuple is replicated
across the channels. -/
def normalize_intensity (num_channels : Nat) (ir : List (Int × Int)) : List (Int × Int) :=
  if num_channels = 1 then ir
  else if ir.length = 1 then List.replicate num_channels (ir.headD (0, 0))
  else ir

/-- One channel's draws: `random.randint(r[0], r[1]+1, size=num_colors)` (source line 273),
consuming `num_colors` stream elements starting at cursor `k`. -/
def channel_draws (lo hi : Int) (num_colors : Nat) (g : Rng) (k : Nat) : List Int :=
  (List.range num_colors).map (fun i => lo + (g (k + i) : Int) % (hi - lo))

/-- Embedding of `_generate_random_colors` (source lines 267-275): draws each channel's
column of `num_colors` samples in channel-major order, then transposes so that row `i` is
the color of shape slot `i`.  Numpy raises `ValueError` if any range has `low >= high`. -/
def generate_random_colors (num_colors num_channels : Nat) (ir : List (Int × Int))
    (g : Rng) (k : Nat) : Except PyError (List (List Int) × Nat) :=
  let rs := normalize_intensity num_channels ir
  if rs.all (fun r => decide (r.1 < r.2 + 1)) then
    let per := rs.enum.map (fun jr => channel_draws jr.2.1 (jr.2.2 + 1) num_colors g (k + jr.1 * num_colors))
    Except.ok ((List.range num_colors).map (fun i => per.map (fun col => col.getD i 0)),
               k + rs.length * num_colors)
  else Except.error (PyError.valueError "low >= high")

/-- A mask entry: numpy's `filled = np.zeros((rows, cols, num_channels), dtype=bool)`
buffer (source line 316) is modelled as the list of `(pixel, channel)` positions that have
been set to `True`. -/
abbrev MaskEntry : Type := Pixel × Nat

/-- An accepted shape's committed data: the pixel set written (`image[indices] = ...`,
`filled[indices] = True`, source lines 358-359) and the color row written into it. -/
abbrev Commit : Type := List Pixel × List Int

/-- The placement engine's view of a shape generator: same calling convention as the
source's `shape_generator(point, image_shape, shape, random)` (line 351), returning the
rasterized pixel set and the label.  The engine is parameterized over it because the
source's generator-resolution step itself raises (see `resolve_shape_generator`). -/
abbrev Gen : Type :=
  Pixel → Nat × Nat × Nat → Int × Int → Rng → Nat → (Except PyError (List Pixel × ShapeLabel)) × Nat

/-- `filled[indices].any()` (source line 357): true when some proposed pixel already has a
`True` at any channel of the occupancy buffer. -/
def mask_overlaps (indices : List Pixel) (mask : List MaskEntry) : Bool :=
  indices.any (fun p => mask.any (fun e => e.1 == p))

/-- `filled[indices] = True` (source line 359): marks every proposed pixel at every
channel index below `num_channels` (numpy broadcasts the 2-D index over the channel axis
of the 3-D buffer). -/
def mark_pixels (num_channels : Nat) (indices : List Pixel) (mask : List MaskEntry) :
    List MaskEntry :=
  mask ++ indices.flatMap (fun p => (List.range num_channels).map (fun ch => (p, ch)))

/-- The state and outcome of one shape slot's retry loop. -/
structure TrialOut : Type where
  mask : List MaskEntry
  commits : List Commit
  labels : List ShapeLabel
  accepted : Bool
  k : Nat
deriving DecidableEq, Repr

/-- Embedding of the per-slot retry loop `for _ in range(num_trials): ...` (source lines
345-361): draw a column then a row uniformly over the canvas extent, invoke the generator,
treat `ArithmeticError` as "try another anchor", accept when overlap is allowed or no
proposed pixel is already filled; `accepted = false` on fuel exhaustion corresponds to the
`for`-`else` branch. -/
def trial_loop (gen : Gen) (image : Nat × Nat × Nat) (shape : Int × Int)
    (allow_overlap : Bool) (color : List Int) (g : Rng) :
    Nat → List MaskEntry → List Commit → List ShapeLabel → Nat → Except PyError TrialOut
  | 0, mask, commits, labels, k => Except.ok ⟨mask, commits, labels, false, k⟩
  | Nat.succ t, mask, commits, labels, k =>
    match randint 0 (image.2.1 : Int) g k with
    | Except.error e => Except.error e
    | Except.ok (column, k1) =>
      match randint 0 (image.1 : Int) g k1 with
      | Except.error e => Except.error e
      | Except.ok (row, k2) =>
        match gen (row, column) image shape g k2 with
        | (Except.error (PyError.arithmeticError _), k3) =>
          trial_loop gen image shape allow_overlap color g t mask commits labels k3
        | (Except.error e, _) => Except.error e
        | (Except.ok (indices, label), k3) =>
          if allow_overlap || !(mask_overlaps indices mask) then
            Except.ok ⟨mark_pixels image.2.2 indices mask,
                       commits ++ [(indices, color)],
                       labels ++ [label], true, k3⟩
          else
            trial_loop gen image shape allow_overlap color g t mask commits labels k3

/-- The final state of one `random_shapes` run: the drawn slot count, the color table, the
occupancy buffer, the committed pixel sets with their colors (the canvas is 255 everywhere
outside them), the labels, the number of `PlacementExhausted`-style warnings emitted, and
the final stream cursor. -/
structure RunResult : Type where
  numShapes : Nat
  colors : List (List Int)
  mask : List MaskEntry
  commits : List Commit
  labels : List ShapeLabel
  warnings : Nat
  k : Nat
deriving DecidableEq, Repr

/-- Embedding of the slot loop `for shape_idx in range(num_shapes)` (source lines
323-364), parameterized by the outcome `resolve` of the generator-resolution step (source
lines 324-343), which the source re-evaluates on every slot.  A slot whose retry loop
exhausts its budget emits a warning (source lines 362-364) and processing continues. -/
def slots_loop (resolve : Except PyError Gen) (image : Nat × Nat × Nat) (shape : Int × Int)
    (allow_overlap : Bool) (num_trials : Nat) (numShapes : Nat) (colors : List (List Int))
    (g : Rng) :
    Nat → Nat → List MaskEntry → List Commit → List ShapeLabel → Nat → Nat →
    Except PyError RunResult
  | 0, _, mask, commits, labels, w, k =>
    Except.ok ⟨numShapes, colors, mask, commits, labels, w, k⟩
  | Nat.succ n, i, mask, commits, labels, w, k =>
    match resolve with
    | Except.error e => Except.error e
    | Except.ok gen =>
      match trial_loop gen image shape allow_overlap (colors.getD i []) g num_trials
          mask commits labels k with
      | Except.error e => Except.error e
      | Except.ok t =>
        slots_loop resolve image shape allow_overlap num_trials numShapes colors g
          n (i + 1) t.mask t.commits t.labels (if t.accepted then w else w + 1) t.k

/-- Embedding of the generator-resolution step of `random_shapes` (source lines 324-343).
When the caller pinned a category, line 343 evaluates `SHAPE_GENERATORS[shape]`, but no
global `SHAPE_GENERATORS` exists (the registries are `SHAPE_GENERATORS_ALL` / `_R_T` /
`_C`), so Python raises `NameError: name 'SHAPE_GENERATORS' is not defined` whatever the
pinned name is.  Otherwise line 326 evaluates `scenario == SHAPE-GENERATOR_ALL_HALO`,
whose right-hand side reads the undefined global `SHAPE`, so Python raises
`NameError: name 'SHAPE' is not defined` whatever the scenario value is; in particular
the unknown-scenario fallback `print("Error in the script")` (lines 339-340) is never
reached. -/
def resolve_shape_generator (user_shape : Option String) (scenario : String) :
    Except PyError Gen :=
  match user_shape with
  | some _ => Except.error (PyError.nameError "SHAPE_GENERATORS")
  | none =>
    match scenario with
    | _ => Except.error (PyError.nameError "SHAPE")

/-- `max_size = max_size or max(image_shape[0], image_shape[1])` (source line 296):
Python's `or` also replaces a falsy explicit `0`. -/
def resolved_max_size (max_size : Option Int) (rows cols : Nat) : Int :=
  match max_size with
  | none => max (rows : Int) (cols : Int)
  | some v => if v = 0 then max (rows : Int) (cols : Int) else v

/-- The intensity-range defaulting and validation of `random_shapes` (source lines
301-309): `None` becomes `(0, 254)` per channel; an explicit range must have every bound
inside `[0, 255]`, else `ValueError`. -/
def check_intensity (ir : Option (List (Int × Int))) : Except PyError (List (Int × Int)) :=
  match ir with
  | none => Except.ok [(0, 254)]
  | some l =>
    if l.all (fun p => decide (0 ≤ p.1 ∧ p.1 ≤ 255 ∧ 0 ≤ p.2 ∧ p.2 ≤ 255)) then Except.ok l
    else Except.error (PyError.valueError "Intensity range must lie within (0, 255) interval")

/-- The background intensity the canvas is initialized to:
`image = np.full(image_shape, 255, dtype=np.uint8)` (source line 315). -/
def image_background : Int := 255

/-- The shape of the occupancy buffer `filled = np.zeros(image_shape, dtype=bool)`
(source line 316), where `image_shape` has been rebound at line 314 to the 3-tuple
`(image_shape[0], image_shape[1], num_channels)`. -/
def np_filled_shape (rows cols num_channels : Nat) : List Nat := [rows, cols, num_channels]

/-- Embedding of the body of `random_shapes` (source lines 294-364), parameterized by the
outcome of the generator-resolution step: the `min_size` validation (294-295), `max_size`
defaulting (296), channel collapse (298-299), intensity defaulting/validation (301-309),
the `num_shapes` draw (319), the up-front color sampling (321-322), and the slot loop. -/
def random_shapes_core (resolve : Except PyError Gen) (rows cols : Nat)
    (max_shapes min_shapes : Nat) (min_size : Int) (max_size : Option Int)
    (multichannel : Bool) (num_channels : Nat) (intensity_range : Option (List (Int × Int)))
    (allow_overlap : Bool) (num_trials : Nat) (g : Rng) : Except PyError RunResult :=
  if min_size > (rows : Int) ∨ min_size > (cols : Int) then
    Except.error (PyError.valueError "Minimum dimension must be less than ncols and nrows")
  else
    let ms := resolved_max_size max_size rows cols
    let nc := if multichannel then num_channels else 1
    match check_intensity intensity_range with
    | Except.error e => Except.error e
    | Except.ok ir =>
      match randintNat min_shapes (max_shapes + 1) g 0 with
      | Except.error e => Except.error e
      | Except.ok (numShapes, k1) =>
        match generate_random_colors numShapes nc ir g k1 with
        | Except.error e => Except.error e
        | Except.ok (colors, k2) =>
          slots_loop resolve (rows, cols, nc) (min_size, ms) allow_overlap num_trials
            numShapes colors g numShapes 0 [] [] [] 0 k2

/-- Embedding of the public `random_shapes` entry point (source lines 278-368), with the
generator resolution of the source (which raises `NameError`, see
`resolve_shape_generator`).  `image_shape = (rows, cols)`. -/
def random_shapes (rows cols : Nat) (max_shapes min_shapes : Nat) (min_size : Int)
    (max_size : Option Int) (multichannel : Bool) (num_channels : Nat)
    (user_shape : Option String) (scenario : String)
    (intensity_range : Option (List (Int × Int))) (allow_overlap : Bool)
    (num_trials : Nat) (g : Rng) : Except PyError RunResult :=
  random_shapes_core (resolve_shape_generator user_shape scenario) rows cols max_shapes
    min_shapes min_size max_size multichannel num_channels intensity_range allow_overlap
    num_trials g

/-- A generator that never fits: every call raises `ArithmeticError`, the recoverable
fit-failure of the source fitters. -/
def genNoFit : Gen := fun _ _ _ _ k =>
  (Except.error (PyError.arithmeticError "cannot fit shape to image"), k)

/-- A generator that always proposes the single pixel `(0, 0)`. -/
def genOrigin : Gen := fun _ _ _ _ k =>
  (Except.ok ([((0 : Int), (0 : Int))], ("unit", ((0, 1), (0, 1)))), k)

/-- The all-zero random stream (the concrete seed used by the witnesses). -/
def streamZero : Rng := fun _ => 0

/-- The occupancy buffer is exactly the channel-replicated trace of the committed pixel
sets: `(p, ch)` is set iff `ch` is a valid channel index and some commit claims `p`. -/
def MaskInv (nc : Nat) (mask : List MaskEntry) (commits : List Commit) : Prop :=
  ∀ p ch, (p, ch) ∈ mask ↔ (ch < nc ∧ ∃ c ∈ commits, p ∈ c.1)

/-- Any two distinct committed shapes have disjoint pixel sets. -/
def CommitsDisjoint (commits : List Commit) : Prop :=
  List.Pairwise (fun a b => ∀ p, p ∈ a.1 → p ∉ b.1) commits

/-- A generator only ever fails with the recoverable `ArithmeticError` (the contract of
the source's fitters at anchors inside the canvas, and of `genNoFit`). -/
def OnlyFitFailures (gen : Gen) (image : Nat × Nat × Nat) (g : Rng) : Prop :=
  ∀ p sh k, (∃ v, (gen p image sh g k).1 = Except.ok v) ∨
    (∃ s, (gen p image sh g k).1 = Except.error (PyError.arithmeticError s))

/-- A random stream holding value `a` at cursor `k` and `b` everywhere else (used to
exhibit that every in-range draw is reachable). -/
def streamPair (k a b : Nat) : Rng := fun i => if i = k then a else b

theorem mem_mark_pixels (nc : Nat) (indices : List Pixel) (mask : List MaskEntry)
    (p : Pixel) (ch : Nat) :
    (p, ch) ∈ mark_pixels nc indices mask ↔ ((p, ch) ∈ mask ∨ (p ∈ indices ∧ ch < nc)) := by
  simp only [mark_pixels, List.mem_append, List.mem_flatMap, List.mem_map, List.mem_range,
    Prod.mk.injEq]
  constructor
  · rintro (h | ⟨q, hq, c2, hc2, rfl, rfl⟩)
    · exact Or.inl h
    · exact Or.inr ⟨hq, hc2⟩
  · rintro (h | ⟨hp, hch⟩)
    · exact Or.inl h
    · exact Or.inr ⟨p, hp, ch, hch, rfl, rfl⟩

theorem mask_overlaps_eq_false (indices : List Pixel) (mask : List MaskEntry) :
    mask_overlaps indices mask = false ↔ ∀ p ∈ indices, ∀ e ∈ mask, e.1 ≠ p := by
  simp only [mask_overlaps, List.any_eq_false, Bool.not_eq_true, beq_eq_false_iff_ne,
    ne_eq]

theorem trial_loop_spec (gen : Gen) (image : Nat × Nat × Nat) (shape : Int × Int)
    (ao : Bool) (color : List Int) (g : Rng) :
    ∀ (t : Nat) (mask : List MaskEntry) (commits : List Commit) (labels : List ShapeLabel)
      (k : Nat) (out : TrialOut),
      trial_loop gen image shape ao color g t mask commits labels k = Except.ok out →
      (out.accepted = false ∧ out.mask = mask ∧ out.commits = commits ∧
        out.labels = labels)
      ∨ (out.accepted = true ∧ ∃ indices label,
          out.mask = mark_pixels image.2.2 indices mask ∧
          out.commits = commits ++ [(indices, color)] ∧
          out.labels = labels ++ [label] ∧
          (ao = false → mask_overlaps indices mask = false)) := by
  intro t
  induction t with
  | zero =>
    intro mask commits labels k out h
    simp only [trial_loop] at h
    cases h
    exact Or.inl ⟨rfl, rfl, rfl, rfl⟩
  | succ t ih =>
    intro mask commits labels k out h
    simp only [trial_loop] at h
    split at h
    · exact Except.noConfusion h
    · split at h
      · exact Except.noConfusion h
      · split at h
        · exact ih _ _ _ _ _ h
        · exact Except.noConfusion h
        · split at h
          · cases h
            rename_i hcond
            refine Or.inr ⟨rfl, _, _, rfl, rfl, rfl, ?_⟩
            intro hao
            subst hao
            simpa using hcond
          · exact ih _ _ _ _ _ h

theorem maskInv_nil (nc : Nat) : MaskInv nc [] [] := by
  intro p ch
  simp [MaskInv]

theorem maskInv_accept (nc : Nat) (mask : List MaskEntry) (commits : List Commit)
    (indices : List Pixel) (color : List Int) (h : MaskInv nc mask commits) :
    MaskInv nc (mark_pixels nc indices mask) (commits ++ [(indices, color)]) := by
  intro p ch
  rw [mem_mark_pixels, h p ch]
  constructor
  · rintro (⟨hch, c, hc, hp⟩ | ⟨hp, hch⟩)
    · exact ⟨hch, c, List.mem_append_left _ hc, hp⟩
    · exact ⟨hch, (indices, color), List.mem_append_right _ (by simp), hp⟩
  · rintro ⟨hch, c, hc, hp⟩
    rcases List.mem_append.mp hc with hc | hc
    · exact Or.inl ⟨hch, c, hc, hp⟩
    · simp only [List.mem_singleton] at hc
      subst hc
      exact Or.inr ⟨hp, hch⟩

theorem disjoint_accept (nc : Nat) (hnc : 0 < nc) (mask : List MaskEntry)
    (commits : List Commit) (indices : List Pixel) (color : List Int)
    (hinv : MaskInv nc mask commits) (hdis : CommitsDisjoint commits)
    (hov : mask_overlaps indices mask = false) :
    CommitsDisjoint (commits ++ [(indices, color)]) := by
  rw [CommitsDisjoint, List.pairwise_append]
  refine ⟨hdis, List.pairwise_singleton _ _, ?_⟩
  intro a ha b hb p hpa
  simp only [List.mem_singleton] at hb
  subst hb
  intro hpb
  have hmem : (p, 0) ∈ mask := (hinv p 0).mpr ⟨hnc, a, ha, hpa⟩
  exact (mask_overlaps_eq_false indices mask).mp hov p hpb (p, 0) hmem rfl

theorem slots_loop_inv (resolve : Except PyError Gen) (image : Nat × Nat × Nat)
    (shape : Int × Int) (ao : Bool) (nt ns : Nat) (cs : List (List Int)) (g : Rng) :
    ∀ (n i : Nat) (mask : List MaskEntry) (commits : List Commit)
      (labels : List ShapeLabel) (w k : Nat) (out : RunResult),
      slots_loop resolve image shape ao nt ns cs g n i mask commits labels w k =
        Except.ok out →
      MaskInv image.2.2 mask commits →
      (ao = false → 0 < image.2.2 → CommitsDisjoint commits) →
      MaskInv image.2.2 out.mask out.commits ∧
      (ao = false → 0 < image.2.2 → CommitsDisjoint out.commits) := by
  intro n
  induction n with
  | zero =>
    intro i mask commits labels w k out h hinv hdis
    simp only [slots_loop] at h
    cases h
    exact ⟨hinv, hdis⟩
  | succ n ih =>
    intro i mask commits labels w k out h hinv hdis
    simp only [slots_loop] at h
    split at h
    · exact Except.noConfusion h
    · rename_i gen
      split at h
      · exact Except.noConfusion h
      · rename_i t ht
        rcases trial_loop_spec gen image shape ao (cs.getD i []) g nt mask commits labels
            k t ht with ⟨_, hm, hc, _⟩ | ⟨_, indices, label, hm, hc, hl, hovl⟩
        · refine ih _ _ _ _ _ _ _ h ?_ ?_
          · rw [hm, hc]; exact hinv
          · rw [hc]; exact hdis
        · refine ih _ _ _ _ _ _ _ h ?_ ?_
          · rw [hm, hc]; exact maskInv_accept _ _ _ _ _ hinv
          · rw [hc]
            intro hao hnc
            exact disjoint_accept _ hnc _ _ _ _ hinv (hdis hao hnc) (hovl hao)

theorem mask_subset_mark (nc : Nat) (indices : List Pixel) (mask : List MaskEntry) :
    ∀ e ∈ mask, e ∈ mark_pixels nc indices mask := by
  intro e he
  exact List.mem_append_left _ he

theorem slots_loop_spec (resolve : Except PyError Gen) (image : Nat × Nat × Nat)
    (shape : Int × Int) (ao : Bool) (nt ns : Nat) (cs : List (List Int)) (g : Rng) :
    ∀ (n i : Nat) (mask : List MaskEntry) (commits : List Commit)
      (labels : List ShapeLabel) (w k : Nat) (out : RunResult),
      slots_loop resolve image shape ao nt ns cs g n i mask commits labels w k =
        Except.ok out →
      out.numShapes = ns ∧ out.colors = cs ∧
      (∀ e ∈ mask, e ∈ out.mask) ∧
      out.labels.length + out.warnings = labels.length + w + n ∧
      (∀ c ∈ out.commits, c ∈ commits ∨ ∃ j, c.2 = cs.getD j []) := by
  intro n
  induction n with
  | zero =>
    intro i mask commits labels w k out h
    simp only [slots_loop] at h
    cases h
    exact ⟨rfl, rfl, fun e he => he, rfl, fun c hc => Or.inl hc⟩
  | succ n ih =>
    intro i mask commits labels w k out h
    simp only [slots_loop] at h
    split at h
    · exact Except.noConfusion h
    · rename_i gen
      split at h
      · exact Except.noConfusion h
      · rename_i t ht
        rcases trial_loop_spec gen image shape ao (cs.getD i []) g nt mask commits labels
            k t ht with ⟨hacc, hm, hc, hl⟩ | ⟨hacc, indices, label, hm, hc, hl, _⟩
        · obtain ⟨h1, h2, h3, h4, h5⟩ := ih _ _ _ _ _ _ _ h
          rw [hacc] at h4
          simp only [Bool.false_eq_true, if_false] at h4
          refine ⟨h1, h2, ?_, ?_, ?_⟩
          · rw [hm] at h3; exact h3
          · rw [hl] at h4; omega
          · rw [hc] at h5; exact h5
        · obtain ⟨h1, h2, h3, h4, h5⟩ := ih _ _ _ _ _ _ _ h
          rw [hacc] at h4
          simp only [if_true] at h4
          refine ⟨h1, h2, ?_, ?_, ?_⟩
          · rw [hm] at h3
            intro e he
            exact h3 e (mask_subset_mark _ _ _ e he)
          · rw [hl] at h4
            simp only [List.length_append, List.length_singleton] at h4
            omega
          · rw [hc] at h5
            intro c hc2
            rcases h5 c hc2 with hcc | hcc
            · rcases List.mem_append.mp hcc with hcc2 | hcc2
              · exact Or.inl hcc2
              · simp only [List.mem_singleton] at hcc2
                subst hcc2
                exact Or.inr ⟨i, rfl⟩
            · exact Or.inr hcc

theorem trial_loop_total (gen : Gen) (image : Nat × Nat × Nat) (shape : Int × Int)
    (ao : Bool) (color : List Int) (g : Rng)
    (hr : 0 < image.1) (hc : 0 < image.2.1) (hgen : OnlyFitFailures gen image g) :
    ∀ (t : Nat) (mask : List MaskEntry) (commits : List Commit)
      (labels : List ShapeLabel) (k : Nat),
      ∃ out, trial_loop gen image shape ao color g t mask commits labels k =
        Except.ok out := by
  intro t
  induction t with
  | zero =>
    intro mask commits labels k
    exact ⟨⟨mask, commits, labels, false, k⟩, rfl⟩
  | succ t ih =>
    intro mask commits labels k
    have hcol : randint 0 (image.2.1 : Int) g k =
        Except.ok ((g k : Int) % (image.2.1 : Int), k + 1) := by
      rw [randint, if_pos (by exact_mod_cast hc)]
      norm_num
    have hrow : randint 0 (image.1 : Int) g (k + 1) =
        Except.ok ((g (k + 1) : Int) % (image.1 : Int), k + 2) := by
      rw [randint, if_pos (by exact_mod_cast hr)]
      norm_num
    rcases hgenk : gen ((g (k + 1) : Int) % (image.1 : Int), (g k : Int) % (image.2.1 : Int))
        image shape g (k + 2) with ⟨res, k3⟩
    rcases hgen ((g (k + 1) : Int) % (image.1 : Int), (g k : Int) % (image.2.1 : Int))
        shape (k + 2) with ⟨v, hv⟩ | ⟨s, hs⟩
    · rw [hgenk] at hv
      simp only at hv
      subst hv
      obtain ⟨indices, label⟩ := v
      by_cases hov : (ao || !(mask_overlaps indices mask)) = true
      · refine ⟨⟨mark_pixels image.2.2 indices mask, commits ++ [(indices, color)],
          labels ++ [label], true, k3⟩, ?_⟩
        simp only [trial_loop, hcol, hrow, hgenk, hov, if_true]
      · obtain ⟨out, hout⟩ := ih mask commits labels k3
        refine ⟨out, ?_⟩
        simp only [trial_loop, hcol, hrow, hgenk, hov, if_false]
        exact hout
    · rw [hgenk] at hs
      simp only at hs
      subst hs
      obtain ⟨out, hout⟩ := ih mask commits labels k3
      refine ⟨out, ?_⟩
      simp only [trial_loop, hcol, hrow, hgenk]
      exact hout

theorem slots_loop_total (gen : Gen) (image : Nat × Nat × Nat) (shape : Int × Int)
    (ao : Bool) (nt ns : Nat) (cs : List (List Int)) (g : Rng)
    (hr : 0 < image.1) (hc : 0 < image.2.1) (hgen : OnlyFitFailures gen image g) :
    ∀ (n i : Nat) (mask : List MaskEntry) (commits : List Commit)
      (labels : List ShapeLabel) (w k : Nat),
      ∃ out, slots_loop (Except.ok gen) image shape ao nt ns cs g n i mask commits labels
        w k = Except.ok out := by
  intro n
  induction n with
  | zero =>
    intro i mask commits labels w k
    exact ⟨⟨ns, cs, mask, commits, labels, w, k⟩, rfl⟩
  | succ n ih =>
    intro i mask commits labels w k
    obtain ⟨t, ht⟩ := trial_loop_total gen image shape ao (cs.getD i []) g hr hc hgen nt
      mask commits labels k
    obtain ⟨out, hout⟩ := ih (i + 1) t.mask t.commits t.labels
      (if t.accepted then w else w + 1) t.k
    refine ⟨out, ?_⟩
    simp only [slots_loop, ht]
    exact hout

theorem getD_mem_or {α : Type} (l : List α) (i : Nat) (d : α) :
    l.getD i d ∈ l ∨ l.getD i d = d := by
  induction l generalizing i with
  | nil => exact Or.inr (by simp [List.getD])
  | cons a t ih =>
    cases i with
    | zero => exact Or.inl (by simp [List.getD])
    | succ j =>
      rcases ih j with h | h
      · exact Or.inl (by simp only [List.getD_cons_succ]; exact List.mem_cons_of_mem a h)
      · exact Or.inr (by simp only [List.getD_cons_succ]; exact h)

theorem normalize_intensity_default (nc : Nat) :
    ∀ r ∈ normalize_intensity nc [((0 : Int), (254 : Int))], r = (0, 254) := by
  intro r hr
  unfold normalize_intensity at hr
  split at hr
  · simpa using hr
  · split at hr
    · simp only [List.headD_cons] at hr
      exact (List.eq_of_mem_replicate hr)
    · simpa using hr

theorem channel_draws_bounds (n : Nat) (g : Rng) (k : Nat) :
    ∀ v ∈ channel_draws 0 255 n g k, 0 ≤ v ∧ v ≤ 254 := by
  intro v hv
  simp only [channel_draws, List.mem_map, List.mem_range] at hv
  obtain ⟨i, _, rfl⟩ := hv
  have h1 : (0 : Int) ≤ (g (k + i) : Int) % (255 - 0) :=
    Int.emod_nonneg _ (by norm_num)
  have h2 : (g (k + i) : Int) % (255 - 0) < 255 :=
    Int.emod_lt_of_pos _ (by norm_num)
  omega

theorem generate_random_colors_default_bounds (n nc : Nat) (g : Rng) (k : Nat)
    (cs : List (List Int)) (k2 : Nat)
    (h : generate_random_colors n nc [(0, 254)] g k = Except.ok (cs, k2)) :
    ∀ row ∈ cs, ∀ v ∈ row, 0 ≤ v ∧ v ≤ 254 := by
  simp only [generate_random_colors] at h
  split at h
  · simp only [Except.ok.injEq, Prod.mk.injEq] at h
    obtain ⟨hcs, _⟩ := h
    subst hcs
    intro row hrow v hv
    simp only [List.mem_map, List.mem_range] at hrow
    obtain ⟨i, _, rfl⟩ := hrow
    simp only [List.mem_map] at hv
    obtain ⟨col, hcol, rfl⟩ := hv
    obtain ⟨jr, hjr, rfl⟩ := hcol
    have hsnd : jr.2 ∈ List.map Prod.snd (List.enum (normalize_intensity nc [(0, 254)])) :=
      List.mem_map_of_mem Prod.snd hjr
    rw [List.enum_map_snd] at hsnd
    have hr : jr.2 = ((0 : Int), (254 : Int)) := normalize_intensity_default nc jr.2 hsnd
    rw [hr]
    rcases getD_mem_or (channel_draws 0 (254 + 1) n g (k + jr.1 * n)) i 0 with hm | hd
    · exact channel_draws_bounds n g (k + jr.1 * n) _ (by exact_mod_cast hm)
    · rw [hd]; norm_num
  · exact Except.noConfusion h

theorem randint_eval (lo hi : Int) (g : Rng) (k : Nat) (h : lo < hi) :
    randint lo hi g k = Except.ok (lo + (g k : Int) % (hi - lo), k + 1) := by
  rw [randint, if_pos h]

theorem randint_bounds (lo hi : Int) (g : Rng) (k : Nat) (h : lo < hi) :
    lo ≤ lo + (g k : Int) % (hi - lo) ∧ lo + (g k : Int) % (hi - lo) < hi := by
  have h1 : (0 : Int) ≤ (g k : Int) % (hi - lo) := Int.emod_nonneg _ (by omega)
  have h2 : (g k : Int) % (hi - lo) < hi - lo := Int.emod_lt_of_pos _ (by omega)
  omega

theorem random_shapes_core_ok (resolve : Except PyError Gen) (rows cols : Nat)
    (max_shapes min_shapes : Nat) (min_size : Int) (max_size : Option Int)
    (multichannel : Bool) (num_channels : Nat) (ir : Option (List (Int × Int)))
    (ao : Bool) (num_trials : Nat) (g : Rng) (out : RunResult)
    (h : random_shapes_core resolve rows cols max_shapes min_shapes min_size max_size
      multichannel num_channels ir ao num_trials g = Except.ok out) :
    ∃ irl ns cs k1 k2,
      check_intensity ir = Except.ok irl ∧
      randintNat min_shapes (max_shapes + 1) g 0 = Except.ok (ns, k1) ∧
      generate_random_colors ns (if multichannel then num_channels else 1) irl g k1 =
        Except.ok (cs, k2) ∧
      slots_loop resolve (rows, cols, if multichannel then num_channels else 1)
        (min_size, resolved_max_size max_size rows cols) ao num_trials ns cs g
        ns 0 [] [] [] 0 k2 = Except.ok out := by
  simp only [random_shapes_core] at h
  split at h
  · exact Except.noConfusion h
  · split at h
    all_goals first
      | exact Except.noConfusion h
      | (split at h
         <;> first
           | exact Except.noConfusion h
           | (split at h
              <;> first
                | exact Except.noConfusion h
                | exact ⟨_, _, _, _, _, by assumption, by assumption, by assumption, h⟩))

/-- Claim C1: the claim states that an unrecognized `scenario` is an InvalidConfiguration
condition, fatal for the whole run and surfaced before any random draws.  The code does
not do this: the scenario dispatch compares against expressions that read the undefined
global `SHAPE` (line 326), so with an unrecognized scenario Python raises
`NameError: name 'SHAPE' is not defined` — not a configuration error — and only inside
the first shape slot, after the run has already drawn `num_shapes` and the whole color
table; the unknown-scenario fallback itself (lines 339-340) would merely `print` and
continue.  This theorem evaluates the embedded run at such a call: the result is the
`NameError`, and the two further conjuncts replay the `num_shapes` draw and the color
sampling that the run performs first, advancing the stream cursor from 0 to 4 before the
failure. -/
theorem claim_c1_unknown_scenario_not_failfast :
    random_shapes 10 10 1 1 2 none true 3 none "definitely_not_a_known_scenario" none
      false 100 streamZero = Except.error (PyError.nameError "SHAPE")
    ∧ randintNat 1 (1 + 1) streamZero 0 = Except.ok (1, 1)
    ∧ generate_random_colors 1 3 [(0, 254)] streamZero 1 = Except.ok ([[0, 0, 0]], 4) :=
  ⟨rfl, rfl, rfl⟩

/-- Claim C2: the claim states that pinning `shape="rectangle"` makes every slot use the
registered rectangle fitter and that the end-to-end example returns exactly one rectangle
label of size 10 x 10.  The code cannot do this: line 343 evaluates
`SHAPE_GENERATORS[shape]`, but no global `SHAPE_GENERATORS` exists (the registry is named
`SHAPE_GENERATORS_ALL`, whose own comment says it "Allows lookup by key"), so Python
raises `NameError: name 'SHAPE_GENERATORS' is not defined` and no canvas or labels are
returned.  This theorem evaluates the embedded run at exactly the claimed example
(128 x 128 canvas, one shape, size range (10, 10), pinned "rectangle", overlap allowed,
fixed seed): the result is that `NameError`, not a single-label success. -/
theorem claim_c2_pinned_category_namerror :
    random_shapes 128 128 1 1 10 (some 10) true 3 (some "rectangle") "scenario" none true
      100 streamZero = Except.error (PyError.nameError "SHAPE_GENERATORS") := rfl

/-- Claim C4 counterexample: the claim pairs the weight vector `[0.4, 0.4, 0.2]` with the
category order rectangle, circle, triangle.  The source registry `SHAPE_GENERATORS_ALL`
(lines 246-250) lists `rectangle, triangle, circle` in insertion order, and
`SHAPE_CHOICES_ALL = list(SHAPE_GENERATORS_ALL.values())` (line 261) inherits it, so
`random.choice(SHAPE_CHOICES_ALL, p=[0.4, 0.4, 0.2])` (line 327) gives weight 0.4 to
triangle and 0.2 to circle — the opposite of the claim; concretely, a uniform draw of
1/2, which the claim's pairing would map to circle, selects triangle. -/
theorem claim_c4_counterexample :
    SHAPE_CHOICES_ALL_CATEGORIES = ["rectangle", "triangle", "circle"]
    ∧ SHAPE_CHOICES_ALL_CATEGORIES ≠ ["rectangle", "circle", "triangle"]
    ∧ halo_category (1 / 2) = "triangle" := by
  refine ⟨rfl, by decide, ?_⟩
  have h1 : ¬((1 : ℚ) / 2 < 2 / 5) := by norm_num
  have h2 : (1 : ℚ) / 2 - 2 / 5 < 2 / 5 := by norm_num
  simp only [halo_category, HALO_WEIGHTS, weighted_index, if_neg h1, if_pos h2,
    SHAPE_CHOICES_ALL_CATEGORIES, SHAPE_GENERATORS_ALL, List.map]
  rfl

/-- Claim C4 (amended): under the default "all categories" scenario the weight vector
`[0.4, 0.4, 0.2]` is paired with the source's category order rectangle, **triangle**,
circle: a uniform draw in `[0, 0.4)` selects rectangle, `[0.4, 0.8)` selects triangle,
and `[0.8, 1)` selects circle. -/
theorem claim_c4_amended_weights (u : ℚ) :
    (0 ≤ u → u < 2 / 5 → halo_category u = "rectangle")
    ∧ (2 / 5 ≤ u → u < 4 / 5 → halo_category u = "triangle")
    ∧ (4 / 5 ≤ u → u < 1 → halo_category u = "circle") := by
  refine ⟨?_, ?_, ?_⟩
  · intro h1 h2
    simp only [halo_category, HALO_WEIGHTS, weighted_index, if_pos h2,
      SHAPE_CHOICES_ALL_CATEGORIES, SHAPE_GENERATORS_ALL, List.map]
    rfl
  · intro h1 h2
    have hn1 : ¬(u < 2 / 5) := by linarith
    have hp2 : u - 2 / 5 < 2 / 5 := by linarith
    simp only [halo_category, HALO_WEIGHTS, weighted_index, if_neg hn1, if_pos hp2,
      SHAPE_CHOICES_ALL_CATEGORIES, SHAPE_GENERATORS_ALL, List.map]
    rfl
  · intro h1 h2
    have hn1 : ¬(u < 2 / 5) := by linarith
    have hn2 : ¬(u - 2 / 5 < 2 / 5) := by linarith
    have hp3 : u - 2 / 5 - 2 / 5 < 1 / 5 := by linarith
    simp only [halo_category, HALO_WEIGHTS, weighted_index, if_neg hn1, if_neg hn2,
      if_pos hp3, SHAPE_CHOICES_ALL_CATEGORIES, SHAPE_GENERATORS_ALL, List.map]
    rfl

/-- Witness for `claim_c4_amended_weights` at the concrete draw 1/2. -/
theorem claim_c4_amended_weights_witness :
    ((2 : ℚ) / 5 ≤ 1 / 2 ∧ (1 : ℚ) / 2 < 4 / 5) ∧ halo_category (1 / 2) = "triangle" :=
  ⟨⟨by norm_num, by norm_num⟩,
   (claim_c4_amended_weights (1 / 2)).2.1 (by norm_num) (by norm_num)⟩

/-- Claim C8 counterexample: the claim states the radius is drawn uniformly in
`[min_radius, available_radius]` inclusive with `min_radius = size_min / 2`.  With
`size_min = 5` the bound is `min_radius = 2.5`, but numpy's legacy `randint` truncates
its float arguments, so `randint(2.5, available_radius + 1)` can return 2, i.e. a radius
strictly below `min_radius`.  Concretely, at anchor (50, 50) on a 100 x 100 canvas with
size range (5, 9) and an all-zero stream, the fitter succeeds with radius 2, and
`2 * 2 < 5` shows `radius < size_min / 2`.  (The bounding-box part of the claim is
correct and is kept in the amended theorem.) -/
theorem claim_c8_counterexample :
    generate_circle_mask (50, 50) (100, 100, 3) (5, 9) streamZero 0
      = (Except.ok (RasterCall.disk (50, 50) 2,
          ("circle", ((49, 52), (49, 52)))), 1)
    ∧ 2 * (2 : Int) < 5 := ⟨rfl, by decide⟩

/-- Claim C9 counterexample: the claim states the occupancy mask has the same row/column
shape as the canvas and **no channel dimension**.  The source builds it as
`np.zeros(image_shape, dtype=bool)` (line 316) after `image_shape` was rebound to the
3-tuple `(rows, cols, num_channels)` (line 314), so the buffer has a channel dimension:
its shape at `image_shape=(128,128)`, `num_channels=3` is `[128, 128, 3]`, not
`[128, 128]`. -/
theorem claim_c9_counterexample :
    np_filled_shape 128 128 3 = [128, 128, 3] ∧ np_filled_shape 128 128 3 ≠ [128, 128] :=
  ⟨rfl, by decide⟩

/-- Claim C6: `random_shapes` is deterministic in its seed: all randomness is drawn from
the single `np.random.RandomState(random_seed)` created at line 311 (modelled as the
stream `g`), so two calls with identical arguments and identical seed streams return
identical results (image, labels, and everything else bit for bit). -/
theorem claim_c6_deterministic (rows cols max_shapes min_shapes : Nat) (min_size : Int)
    (max_size : Option Int) (multichannel : Bool) (num_channels : Nat)
    (user_shape : Option String) (scenario : String)
    (intensity_range : Option (List (Int × Int))) (allow_overlap : Bool)
    (num_trials : Nat) (g1 g2 : Rng) (h : g1 = g2) :
    random_shapes rows cols max_shapes min_shapes min_size max_size multichannel
        num_channels user_shape scenario intensity_range allow_overlap num_trials g1
      = random_shapes rows cols max_shapes min_shapes min_size max_size multichannel
        num_channels user_shape scenario intensity_range allow_overlap num_trials g2 := by
  rw [h]

/-- Witness for `claim_c6_deterministic` at a concrete argument list and seed stream. -/
theorem claim_c6_deterministic_witness :
    streamZero = streamZero
    ∧ random_shapes 2 2 1 1 2 none true 1 none "s" none false 1 streamZero
      = random_shapes 2 2 1 1 2 none true 1 none "s" none false 1 streamZero :=
  ⟨rfl, claim_c6_deterministic 2 2 1 1 2 none true 1 none "s" none false 1
    streamZero streamZero rfl⟩

/-- Claim C3: in any run of the placement engine with `allow_overlap=False` (whatever
generator the resolution step produced), the pixel sets of any two distinct accepted
shapes are disjoint: a proposal is accepted only if `filled[indices].any()` is false
(source line 357) and its pixels are marked in `filled` before the next slot runs (line
359).  The hypothesis `0 < num_channels` reflects that the occupancy buffer records a
pixel through its channel entries (a zero-channel buffer records nothing); with zero
channels the source would crash indexing the empty color table instead. -/
theorem claim_c3_no_overlap_disjoint (resolve : Except PyError Gen)
    (rows cols max_shapes min_shapes : Nat) (min_size : Int) (max_size : Option Int)
    (multichannel : Bool) (num_channels : Nat) (intensity_range : Option (List (Int × Int)))
    (num_trials : Nat) (g : Rng) (out : RunResult)
    (hnc : 0 < (if multichannel then num_channels else 1))
    (h : random_shapes_core resolve rows cols max_shapes min_shapes min_size max_size
      multichannel num_channels intensity_range false num_trials g = Except.ok out) :
    CommitsDisjoint out.commits := by
  obtain ⟨irl, ns, cs, k1, k2, _, _, _, hs⟩ := random_shapes_core_ok resolve rows cols
    max_shapes min_shapes min_size max_size multichannel num_channels intensity_range
    false num_trials g out h
  exact (slots_loop_inv resolve (rows, cols, if multichannel then num_channels else 1)
    (min_size, resolved_max_size max_size rows cols) false num_trials ns cs g ns 0 [] []
    [] 0 k2 out hs (maskInv_nil _) (fun _ _ => List.Pairwise.nil)).2 rfl hnc

/-- Witness for `claim_c3_no_overlap_disjoint`: a concrete no-overlap run (2 x 2 canvas,
one slot, one trial, generator that never fits) succeeds and its commits are pairwise
disjoint. -/
theorem claim_c3_no_overlap_disjoint_witness :
    0 < 1 ∧ CommitsDisjoint ([] : List Commit) :=
  ⟨by decide,
   claim_c3_no_overlap_disjoint (Except.ok genNoFit) 2 2 1 1 2 none true 1 none 1
     streamZero ⟨1, [[0]], [], [], [], 1, 4⟩ (by decide) rfl⟩

/-- Claim C9 (amended): the occupancy buffer is `np.zeros((rows, cols, num_channels),
dtype=bool)` — it does have a channel dimension, contrary to the claim's "no channel
dimension" (see `claim_c9_counterexample`) — but it is channel-uniform and otherwise as
claimed: (1) across any run of the slot loop the set of `True` entries is monotonically
non-decreasing (entries once set are never cleared), and (2) at the end of a successful
run an entry `(p, ch)` is `True` exactly when `ch` is a valid channel index and some
accepted shape claimed pixel `p` — in particular all channels of a pixel are written
identically. -/
theorem claim_c9_amended_mask :
    (∀ (resolve : Except PyError Gen) (image : Nat × Nat × Nat) (shape : Int × Int)
      (ao : Bool) (nt ns : Nat) (cs : List (List Int)) (g : Rng) (n i : Nat)
      (mask : List MaskEntry) (commits : List Commit) (labels : List ShapeLabel)
      (w k : Nat) (out : RunResult),
      slots_loop resolve image shape ao nt ns cs g n i mask commits labels w k =
        Except.ok out →
      ∀ e ∈ mask, e ∈ out.mask)
    ∧ (∀ (resolve : Except PyError Gen) (rows cols max_shapes min_shapes : Nat)
        (min_size : Int) (max_size : Option Int) (multichannel : Bool)
        (num_channels : Nat) (intensity_range : Option (List (Int × Int))) (ao : Bool)
        (num_trials : Nat) (g : Rng) (out : RunResult),
        random_shapes_core resolve rows cols max_shapes min_shapes min_size max_size
          multichannel num_channels intensity_range ao num_trials g = Except.ok out →
        ∀ p ch, (p, ch) ∈ out.mask
          ↔ (ch < (if multichannel then num_channels else 1) ∧
             ∃ c ∈ out.commits, p ∈ c.1)) := by
  constructor
  · intro resolve image shape ao nt ns cs g n i mask commits labels w k out h
    exact (slots_loop_spec resolve image shape ao nt ns cs g n i mask commits labels w k
      out h).2.2.1
  · intro resolve rows cols max_shapes min_shapes min_size max_size multichannel
      num_channels intensity_range ao num_trials g out h
    obtain ⟨irl, ns, cs, k1, k2, _, _, _, hs⟩ := random_shapes_core_ok resolve rows cols
      max_shapes min_shapes min_size max_size multichannel num_channels intensity_range
      ao num_trials g out h
    exact (slots_loop_inv resolve (rows, cols, if multichannel then num_channels else 1)
      (min_size, resolved_max_size max_size rows cols) ao num_trials ns cs g ns 0 [] []
      [] 0 k2 out hs (maskInv_nil _) (fun _ hnc => List.Pairwise.nil)).1

/-- Witness for `claim_c9_amended_mask`: instantiating the monotonicity part at a
zero-slot loop starting from a nonempty buffer shows the starting entry survives. -/
theorem claim_c9_amended_mask_witness :
    (((0 : Int), (0 : Int)), (0 : Nat)) ∈ ([(((0 : Int), (0 : Int)), (0 : Nat))] : List MaskEntry) ∧
    (((0 : Int), (0 : Int)), (0 : Nat)) ∈
      ((⟨0, [], [(((0 : Int), (0 : Int)), 0)], [], [], 0, 0⟩ : RunResult)).mask :=
  ⟨by simp,
   claim_c9_amended_mask.1 (Except.ok genNoFit) (1, 1, 1) (0, 0) false 0 0 [] streamZero
     0 0 [(((0 : Int), (0 : Int)), 0)] [] [] 0 0
     ⟨0, [], [(((0 : Int), (0 : Int)), 0)], [], [], 0, 0⟩ rfl
     (((0 : Int), (0 : Int)), 0) (by simp)⟩

/-- Claim C10: when `intensity_range` is `None`, the default range `(0, 254)` per channel
(source lines 301-302) makes every sampled color component lie in `[0, 254]`, strictly
below the background 255 that `np.full(image_shape, 255)` (line 315) initializes the
canvas to; hence the color row written for any accepted shape has every component
different from the untouched background value. -/
theorem claim_c10_default_colors_below_background (resolve : Except PyError Gen)
    (rows cols max_shapes min_shapes : Nat) (min_size : Int) (max_size : Option Int)
    (multichannel : Bool) (num_channels : Nat) (ao : Bool) (num_trials : Nat) (g : Rng)
    (out : RunResult)
    (h : random_shapes_core resolve rows cols max_shapes min_shapes min_size max_size
      multichannel num_channels none ao num_trials g = Except.ok out) :
    (∀ row ∈ out.colors, ∀ v ∈ row, 0 ≤ v ∧ v ≤ 254 ∧ v < image_background)
    ∧ (∀ c ∈ out.commits, ∀ v ∈ c.2, v ≠ image_background) := by
  obtain ⟨irl, ns, cs, k1, k2, hirl, hns, hcs, hs⟩ := random_shapes_core_ok resolve rows
    cols max_shapes min_shapes min_size max_size multichannel num_channels none ao
    num_trials g out h
  have hirl2 : irl = [((0 : Int), (254 : Int))] := by
    simp only [check_intensity, Except.ok.injEq] at hirl
    exact hirl.symm
  subst hirl2
  have hbound := generate_random_colors_default_bounds ns
    (if multichannel then num_channels else 1) g k1 cs k2 hcs
  obtain ⟨h1, h2, _, _, h5⟩ := slots_loop_spec resolve
    (rows, cols, if multichannel then num_channels else 1)
    (min_size, resolved_max_size max_size rows cols) ao num_trials ns cs g ns 0 [] [] []
    0 k2 out hs
  constructor
  · intro row hrow v hv
    rw [h2] at hrow
    have := hbound row hrow v hv
    refine ⟨this.1, this.2, ?_⟩
    have : v ≤ 254 := (hbound row hrow v hv).2
    simp only [image_background]
    omega
  · intro c hc v hv
    rcases h5 c hc with hfalse | ⟨j, hj⟩
    · simp at hfalse
    · rw [hj] at hv
      rcases getD_mem_or cs j [] with hm | hd
      · have := hbound _ hm v hv
        simp only [image_background]
        omega
      · rw [hd] at hv
        simp at hv

/-- Witness for `claim_c10_default_colors_below_background`: a concrete run (4 x 4
canvas, three slots, generator proposing pixel (0,0), no overlap) commits one shape whose
color row avoids the background. -/
theorem claim_c10_default_colors_below_background_witness :
    (∀ row ∈ (⟨3, [[0, 0], [0, 0], [0, 0]], [((0, 0), 0), ((0, 0), 1)],
        [([(0, 0)], [0, 0])], [("unit", ((0, 1), (0, 1)))], 2, 29⟩ : RunResult).colors,
      ∀ v ∈ row, 0 ≤ v ∧ v ≤ 254 ∧ v < image_background)
    ∧ (∀ c ∈ (⟨3, [[0, 0], [0, 0], [0, 0]], [((0, 0), 0), ((0, 0), 1)],
        [([(0, 0)], [0, 0])], [("unit", ((0, 1), (0, 1)))], 2, 29⟩ : RunResult).commits,
      ∀ v ∈ c.2, v ≠ image_background) :=
  claim_c10_default_colors_below_background (Except.ok genOrigin) 4 4 3 3 2 none true 2
    false 5 streamZero
    ⟨3, [[0, 0], [0, 0], [0, 0]], [((0, 0), 0), ((0, 0), 1)],
      [([(0, 0)], [0, 0])], [("unit", ((0, 1), (0, 1)))], 2, 29⟩ rfl

/-- Claim C5: exhausting the `num_trials` budget for one slot is non-fatal — the
`for`-`else` at lines 362-364 just records a warning and the loop moves to the next slot
— and the run returns normally with `0 <= len(labels) <= num_shapes <= max_shapes`, where
`num_shapes = randint(min_shapes, max_shapes + 1)` (line 319) lies in
`[min_shapes, max_shapes]`.  Stated for the engine with any resolved generator whose
failures are all recoverable `ArithmeticError`s (the contract of the source fitters):
under the configuration-validity hypotheses, the run always returns `Except.ok` (never
aborts), and every slot contributes exactly one label or one warning, so
`len(labels) + warnings = num_shapes`. -/
theorem claim_c5_exhaustion_nonfatal (gen : Gen) (rows cols max_shapes min_shapes : Nat)
    (min_size : Int) (max_size : Option Int) (multichannel : Bool) (num_channels : Nat)
    (intensity_range : Option (List (Int × Int))) (ao : Bool) (num_trials : Nat)
    (g : Rng) (irl : List (Int × Int))
    (hrows : 0 < rows) (hcols : 0 < cols)
    (hsz : ¬(min_size > (rows : Int) ∨ min_size > (cols : Int)))
    (hms : min_shapes ≤ max_shapes)
    (hir : check_intensity intensity_range = Except.ok irl)
    (hfeas : ((normalize_intensity (if multichannel then num_channels else 1) irl).all
      (fun r => decide (r.1 < r.2 + 1))) = true)
    (hgen : OnlyFitFailures gen (rows, cols, if multichannel then num_channels else 1) g) :
    ∃ out, random_shapes_core (Except.ok gen) rows cols max_shapes min_shapes min_size
        max_size multichannel num_channels intensity_range ao num_trials g = Except.ok out
      ∧ out.labels.length + out.warnings = out.numShapes
      ∧ min_shapes ≤ out.numShapes ∧ out.numShapes ≤ max_shapes := by
  have hns : randintNat min_shapes (max_shapes + 1) g 0 =
      Except.ok (min_shapes + g 0 % (max_shapes + 1 - min_shapes), 1) := by
    rw [randintNat, if_pos (by omega)]
  have hmod : g 0 % (max_shapes + 1 - min_shapes) < max_shapes + 1 - min_shapes :=
    Nat.mod_lt _ (by omega)
  have hcsx : ∃ cs k2, generate_random_colors (min_shapes + g 0 % (max_shapes + 1 - min_shapes))
      (if multichannel then num_channels else 1) irl g 1 = Except.ok (cs, k2) := by
    simp only [generate_random_colors]
    rw [if_pos hfeas]
    exact ⟨_, _, rfl⟩
  obtain ⟨cs, k2, hcs⟩ := hcsx
  obtain ⟨out, hout⟩ := slots_loop_total gen
    (rows, cols, if multichannel then num_channels else 1)
    (min_size, resolved_max_size max_size rows cols) ao num_trials
    (min_shapes + g 0 % (max_shapes + 1 - min_shapes)) cs g hrows hcols hgen
    (min_shapes + g 0 % (max_shapes + 1 - min_shapes)) 0 [] [] [] 0 k2
  have hcore : random_shapes_core (Except.ok gen) rows cols max_shapes min_shapes
      min_size max_size multichannel num_channels intensity_range ao num_trials g =
      Except.ok out := by
    simp only [random_shapes_core, hir, hns, hcs]
    rw [if_neg hsz]
    exact hout
  obtain ⟨h1, _, _, h4, _⟩ := slots_loop_spec (Except.ok gen)
    (rows, cols, if multichannel then num_channels else 1)
    (min_size, resolved_max_size max_size rows cols) ao num_trials
    (min_shapes + g 0 % (max_shapes + 1 - min_shapes)) cs g
    (min_shapes + g 0 % (max_shapes + 1 - min_shapes)) 0 [] [] [] 0 k2 out hout
  refine ⟨out, hcore, ?_, ?_, ?_⟩
  · simp only [List.length_nil] at h4
    omega
  · omega
  · omega

/-- Witness for `claim_c5_exhaustion_nonfatal`: a concrete run (2 x 2 canvas, one slot,
one trial, generator that never fits) exhausts its budget, warns, and still returns
normally with zero labels and one warning. -/
theorem claim_c5_exhaustion_nonfatal_witness :
    1 ≤ 1 ∧
    ∃ out, random_shapes_core (Except.ok genNoFit) 2 2 1 1 2 none true 1 none false 1
        streamZero = Except.ok out
      ∧ out.labels.length + out.warnings = out.numShapes
      ∧ 1 ≤ out.numShapes ∧ out.numShapes ≤ 1 :=
  ⟨le_refl 1,
   claim_c5_exhaustion_nonfatal genNoFit 2 2 1 1 2 none true 1 none false 1 streamZero
     [(0, 254)] (by decide) (by decide) (by decide) (le_refl 1) rfl rfl
     (fun p sh k => Or.inr ⟨_, rfl⟩)⟩

theorem streamPair_self (k a b : Nat) : streamPair k a b k = a := if_pos rfl

theorem streamPair_other (k a b i : Nat) (h : i ≠ k) : streamPair k a b i = b :=
  if_neg h

theorem generate_rectangle_mask_eval (pr pc : Int) (rows cols nc : Nat) (smin smax : Int)
    (g : Rng) (k : Nat)
    (h1 : ¬ min ((cols : Int) - pc) smax < smin)
    (h2 : ¬ min ((rows : Int) - pr) smax < smin) :
    generate_rectangle_mask (pr, pc) (rows, cols, nc) (smin, smax) g k =
      (Except.ok (RasterCall.polygon
          [pr, pr + (smin + (g k : Int) % (min ((rows : Int) - pr) smax + 1 - smin)),
           pr + (smin + (g k : Int) % (min ((rows : Int) - pr) smax + 1 - smin)), pr]
          [pc, pc,
           pc + (smin + (g (k + 1) : Int) % (min ((cols : Int) - pc) smax + 1 - smin)),
           pc + (smin + (g (k + 1) : Int) % (min ((cols : Int) - pc) smax + 1 - smin))],
         ("rectangle",
          ((pr, pr + (smin + (g k : Int) % (min ((rows : Int) - pr) smax + 1 - smin))),
           (pc, pc + (smin + (g (k + 1) : Int) % (min ((cols : Int) - pc) smax + 1 - smin)))))),
       k + 2) := by
  have hh : smin < min ((rows : Int) - pr) smax + 1 := by omega
  have hw : smin < min ((cols : Int) - pc) smax + 1 := by omega
  simp [generate_rectangle_mask, randint, h1, h2, hh, hw]

/-- Claim C7: the rectangle fitter at anchor `(pr, pc)` has available width
`min(cols - pc, size_max)` and available height `min(rows - pr, size_max)`; it raises its
recoverable fit failure iff either available extent is below `size_min`; otherwise the
height and width are drawn independently from the full inclusive ranges
`[size_min, available_height]` and `[size_min, available_width]` (every pair of values in
those ranges is reached by some random stream), and the label is
`('rectangle', ((pr, pr + height), (pc, pc + width)))`. -/
theorem claim_c7_rectangle_fitter (pr pc : Int) (rows cols nc : Nat) (smin smax : Int)
    (g : Rng) (k : Nat) :
    (((generate_rectangle_mask (pr, pc) (rows, cols, nc) (smin, smax) g k).1
        = Except.error (PyError.arithmeticError "cannot fit shape to image"))
      ↔ (min ((cols : Int) - pc) smax < smin ∨ min ((rows : Int) - pr) smax < smin))
    ∧ (¬(min ((cols : Int) - pc) smax < smin ∨ min ((rows : Int) - pr) smax < smin) →
        ∃ hgt wid, smin ≤ hgt ∧ hgt ≤ min ((rows : Int) - pr) smax ∧
          smin ≤ wid ∧ wid ≤ min ((cols : Int) - pc) smax ∧
          generate_rectangle_mask (pr, pc) (rows, cols, nc) (smin, smax) g k
            = (Except.ok (RasterCall.polygon [pr, pr + hgt, pr + hgt, pr]
                [pc, pc, pc + wid, pc + wid],
               ("rectangle", ((pr, pr + hgt), (pc, pc + wid)))), k + 2))
    ∧ (∀ hgt wid, smin ≤ hgt → hgt ≤ min ((rows : Int) - pr) smax →
        smin ≤ wid → wid ≤ min ((cols : Int) - pc) smax →
        ∃ g2, generate_rectangle_mask (pr, pc) (rows, cols, nc) (smin, smax) g2 k
          = (Except.ok (RasterCall.polygon [pr, pr + hgt, pr + hgt, pr]
              [pc, pc, pc + wid, pc + wid],
             ("rectangle", ((pr, pr + hgt), (pc, pc + wid)))), k + 2)) := by
  refine ⟨?_, ?_, ?_⟩
  · constructor
    · intro herr
      by_contra hno
      rw [generate_rectangle_mask_eval pr pc rows cols nc smin smax g k
        (fun hx => hno (Or.inl hx)) (fun hx => hno (Or.inr hx))] at herr
      exact Except.noConfusion herr
    · intro hfail
      by_cases hA : min ((cols : Int) - pc) smax < smin
      · simp [generate_rectangle_mask, hA]
      · have hB : min ((rows : Int) - pr) smax < smin := by
          rcases hfail with hx | hx
          · exact absurd hx hA
          · exact hx
        simp [generate_rectangle_mask, hA, hB]
  · intro hno
    have h1 : ¬ min ((cols : Int) - pc) smax < smin := fun hx => hno (Or.inl hx)
    have h2 : ¬ min ((rows : Int) - pr) smax < smin := fun hx => hno (Or.inr hx)
    refine ⟨smin + (g k : Int) % (min ((rows : Int) - pr) smax + 1 - smin),
            smin + (g (k + 1) : Int) % (min ((cols : Int) - pc) smax + 1 - smin),
            ?_, ?_, ?_, ?_, ?_⟩
    · exact (randint_bounds smin (min ((rows : Int) - pr) smax + 1) g k (by omega)).1
    · have := (randint_bounds smin (min ((rows : Int) - pr) smax + 1) g k (by omega)).2
      omega
    · exact (randint_bounds smin (min ((cols : Int) - pc) smax + 1) g (k + 1) (by omega)).1
    · have := (randint_bounds smin (min ((cols : Int) - pc) smax + 1) g (k + 1)
        (by omega)).2
      omega
    · exact generate_rectangle_mask_eval pr pc rows cols nc smin smax g k h1 h2
  · intro hgt wid hh1 hh2 hw1 hw2
    refine ⟨streamPair k (hgt - smin).toNat (wid - smin).toNat, ?_⟩
    have h1 : ¬ min ((cols : Int) - pc) smax < smin := by omega
    have h2 : ¬ min ((rows : Int) - pr) smax < smin := by omega
    rw [generate_rectangle_mask_eval pr pc rows cols nc smin smax _ k h1 h2]
    rw [streamPair_self, streamPair_other k _ _ (k + 1) (by omega)]
    rw [Int.toNat_of_nonneg (by omega : (0 : Int) ≤ hgt - smin),
        Int.toNat_of_nonneg (by omega : (0 : Int) ≤ wid - smin)]
    rw [Int.emod_eq_of_lt (by omega) (by omega),
        Int.emod_eq_of_lt (by omega) (by omega)]
    have e3 : smin + (hgt - smin) = hgt := by omega
    have e4 : smin + (wid - smin) = wid := by omega
    rw [e3, e4]

/-- Witness for `claim_c7_rectangle_fitter`: the fail-iff characterization instantiated
at anchor (5, 5) on a 20 x 20 canvas with size range (4, 6). -/
theorem claim_c7_rectangle_fitter_witness :
    ((generate_rectangle_mask (5, 5) (20, 20, 3) (4, 6) streamZero 0).1
        = Except.error (PyError.arithmeticError "cannot fit shape to image"))
      ↔ (min ((20 : Int) - 5) 6 < 4 ∨ min ((20 : Int) - 5) 6 < 4) :=
  (claim_c7_rectangle_fitter 5 5 20 20 3 4 6 streamZero 0).1

theorem generate_circle_mask_eval (pr pc : Int) (rows cols nc : Nat) (smin smax : Int)
    (g : Rng) (k : Nat)
    (hsz : ¬(smin = 1 ∨ smax = 1))
    (hfit : ¬ min (min (min (2 * pc) (2 * ((cols : Int) - pc)))
      (min (2 * pr) (2 * ((rows : Int) - pr)))) smax < smin)
    (hlt : truncHalf smin < truncHalf (min (min (min (2 * pc) (2 * ((cols : Int) - pc)))
      (min (2 * pr) (2 * ((rows : Int) - pr)))) smax + 2)) :
    generate_circle_mask (pr, pc) (rows, cols, nc) (smin, smax) g k =
      (Except.ok (RasterCall.disk (pr, pc)
          (truncHalf smin + (g k : Int) %
            (truncHalf (min (min (min (2 * pc) (2 * ((cols : Int) - pc)))
              (min (2 * pr) (2 * ((rows : Int) - pr)))) smax + 2) - truncHalf smin)),
        ("circle",
         ((pr - (truncHalf smin + (g k : Int) %
             (truncHalf (min (min (min (2 * pc) (2 * ((cols : Int) - pc)))
               (min (2 * pr) (2 * ((rows : Int) - pr)))) smax + 2) - truncHalf smin)) + 1,
           pr + (truncHalf smin + (g k : Int) %
             (truncHalf (min (min (min (2 * pc) (2 * ((cols : Int) - pc)))
               (min (2 * pr) (2 * ((rows : Int) - pr)))) smax + 2) - truncHalf smin))),
          (pc - (truncHalf smin + (g k : Int) %
             (truncHalf (min (min (min (2 * pc) (2 * ((cols : Int) - pc)))
               (min (2 * pr) (2 * ((rows : Int) - pr)))) smax + 2) - truncHalf smin)) + 1,
           pc + (truncHalf smin + (g k : Int) %
             (truncHalf (min (min (min (2 * pc) (2 * ((cols : Int) - pc)))
               (min (2 * pr) (2 * ((rows : Int) - pr)))) smax + 2) - truncHalf smin)))))),
       k + 1) := by
  simp [generate_circle_mask, randint, hsz, hfit, hlt]

theorem truncHalf_of_nonneg (n : Int) (h : 0 ≤ n) :
    truncHalf n = ((n.toNat / 2 : Nat) : Int) := by
  rw [truncHalf, if_pos h]

theorem truncHalf_add_two (n : Int) (h : 0 ≤ n) :
    truncHalf (n + 2) = truncHalf n + 1 := by
  rw [truncHalf_of_nonneg n h, truncHalf_of_nonneg (n + 2) (by omega)]
  have h1 : (n + 2).toNat = n.toNat + 2 := by omega
  rw [h1, Nat.add_div_right _ (by norm_num)]
  push_cast
  ring

/-- Claim C8 (amended): for a successful circle fit, the available radius is the minimum
of the four distances to the canvas edges and `max_radius = size_max / 2` (carried below
as twice its value, the integer `A`), and the label bounding box is the one-pixel
asymmetric `((row - radius + 1, row + radius), (col - radius + 1, col + radius))` exactly
as the claim states.  The amendment concerns only the sampling interval: numpy's legacy
`randint` truncates its float arguments, so the radius is drawn uniformly from the
integers in `[trunc(min_radius), trunc(available_radius)]` = `[truncHalf size_min,
truncHalf A]` — for odd `size_min` the lower end is `(size_min - 1) / 2 < min_radius`,
so the claim's `radius ≥ min_radius` fails (see `claim_c8_counterexample`).  Every
integer in that truncated range is reached by some stream. -/
theorem claim_c8_circle_fitter_amended (pr pc : Int) (rows cols nc : Nat)
    (smin smax : Int) (g : Rng) (k : Nat) (A : Int)
    (hA : A = min (min (min (2 * pc) (2 * ((cols : Int) - pc)))
      (min (2 * pr) (2 * ((rows : Int) - pr)))) smax)
    (hsz : ¬(smin = 1 ∨ smax = 1)) (hnn : 0 ≤ smin) (hfit : ¬ A < smin) :
    (∃ radius, truncHalf smin ≤ radius ∧ radius ≤ truncHalf A ∧
      generate_circle_mask (pr, pc) (rows, cols, nc) (smin, smax) g k
        = (Except.ok (RasterCall.disk (pr, pc) radius,
            ("circle", ((pr - radius + 1, pr + radius),
                        (pc - radius + 1, pc + radius)))), k + 1))
    ∧ (∀ radius, truncHalf smin ≤ radius → radius ≤ truncHalf A →
        ∃ g2, generate_circle_mask (pr, pc) (rows, cols, nc) (smin, smax) g2 k
          = (Except.ok (RasterCall.disk (pr, pc) radius,
              ("circle", ((pr - radius + 1, pr + radius),
                          (pc - radius + 1, pc + radius)))), k + 1)) := by
  subst hA
  have hnnA : (0 : Int) ≤ min (min (min (2 * pc) (2 * ((cols : Int) - pc)))
      (min (2 * pr) (2 * ((rows : Int) - pr)))) smax := by omega
  have hmono : truncHalf smin ≤ truncHalf (min (min (min (2 * pc) (2 * ((cols : Int) - pc)))
      (min (2 * pr) (2 * ((rows : Int) - pr)))) smax) := by
    rw [truncHalf_of_nonneg _ hnn, truncHalf_of_nonneg _ hnnA]
    have : smin.toNat ≤ (min (min (min (2 * pc) (2 * ((cols : Int) - pc)))
        (min (2 * pr) (2 * ((rows : Int) - pr)))) smax).toNat := by omega
    exact_mod_cast Nat.div_le_div_right this
  have hstep : truncHalf (min (min (min (2 * pc) (2 * ((cols : Int) - pc)))
      (min (2 * pr) (2 * ((rows : Int) - pr)))) smax + 2)
      = truncHalf (min (min (min (2 * pc) (2 * ((cols : Int) - pc)))
        (min (2 * pr) (2 * ((rows : Int) - pr)))) smax) + 1 :=
    truncHalf_add_two _ hnnA
  have hlt : truncHalf smin < truncHalf (min (min (min (2 * pc) (2 * ((cols : Int) - pc)))
      (min (2 * pr) (2 * ((rows : Int) - pr)))) smax + 2) := by omega
  constructor
  · refine ⟨truncHalf smin + (g k : Int) %
      (truncHalf (min (min (min (2 * pc) (2 * ((cols : Int) - pc)))
        (min (2 * pr) (2 * ((rows : Int) - pr)))) smax + 2) - truncHalf smin),
      ?_, ?_, ?_⟩
    · exact (randint_bounds _ _ g k hlt).1
    · have := (randint_bounds _ _ g k hlt).2
      omega
    · exact generate_circle_mask_eval pr pc rows cols nc smin smax g k hsz hfit hlt
  · intro radius hr1 hr2
    refine ⟨streamPair k (radius - truncHalf smin).toNat 0, ?_⟩
    rw [generate_circle_mask_eval pr pc rows cols nc smin smax _ k hsz hfit hlt]
    rw [streamPair_self]
    rw [Int.toNat_of_nonneg (by omega : (0 : Int) ≤ radius - truncHalf smin)]
    rw [Int.emod_eq_of_lt (by omega) (by omega)]
    have e1 : truncHalf smin + (radius - truncHalf smin) = radius := by omega
    rw [e1]

/-- Witness for `claim_c8_circle_fitter_amended` at anchor (50, 50) on a 100 x 100
canvas with size range (4, 9): the fit succeeds with a radius between
`truncHalf 4 = 2` and `truncHalf 9 = 4`. -/
theorem claim_c8_circle_fitter_amended_witness :
    (9 : Int) = min (min (min (2 * 50) (2 * ((100 : Int) - 50)))
        (min (2 * 50) (2 * ((100 : Int) - 50)))) 9
    ∧ (∃ radius, truncHalf 4 ≤ radius ∧ radius ≤ truncHalf 9 ∧
        generate_circle_mask (50, 50) (100, 100, 3) (4, 9) streamZero 0
          = (Except.ok (RasterCall.disk (50, 50) radius,
              ("circle", ((50 - radius + 1, 50 + radius),
                          (50 - radius + 1, 50 + radius)))), 0 + 1)) :=
  ⟨by decide,
   (claim_c8_circle_fitter_amended 50 50 100 100 3 4 9 streamZero 0 9 (by decide)
     (by decide) (by decide) (by decide)).1⟩
